import Mathlib

/-
Verification of the brain/edge coordinator-worker dispatch core of the
repository (src/brain_edge_interaction.py and src/test_fireworks.py),
via a shallow embedding: Python strings are Lean Strings (lists of Chars),
the remote Fireworks backend is an oracle function passed explicitly
(`Backend`), network failure is `Option.none` as in `get_completion`,
the mutable `self.thought_log` list is threaded state, and the Python
`TypeError` raised by `re.search` on a `None` argument is an explicit
`Except.error`.  Wall-clock timestamps on log entries are omitted (they
carry no information any property depends on).
-/

namespace BrainEdge

/-- Characters stripped by Python `str.strip()` (the ASCII whitespace set). -/
def isPySpace (c : Char) : Bool :=
  c = ' ' || c = '\t' || c = '\n' || c = '\r' || c = '\x0b' || c = '\x0c'

/-- Python `str.strip()` on a list of characters: drop leading and trailing
whitespace. -/
def pyStrip (l : List Char) : List Char :=
  ((l.dropWhile isPySpace).reverse.dropWhile isPySpace).reverse

/-- Python `str.strip()` on strings. -/
def pyStripS (s : String) : String :=
  ⟨pyStrip s.data⟩

/-- Index of the first occurrence of `pat` as a contiguous sublist of `s`
(`none` when `pat` does not occur). -/
def firstOcc (pat : List Char) : List Char → Option Nat
  | [] => if pat = [] then some 0 else none
  | c :: rest =>
    if pat.isPrefixOf (c :: rest) then some 0
    else (firstOcc pat rest).map (· + 1)

/-- Semantics of Python `re.search(openT + "(.*?)" + closeT, s, re.DOTALL)`:
the match starts at the first occurrence of `openT`, and the lazily matched
group runs to the first occurrence of `closeT` after that opening; `none`
when no such pair exists. -/
def extractBetween (openT closeT s : List Char) : Option (List Char) :=
  match firstOcc openT s with
  | none => none
  | some i =>
    let rest := s.drop (i + openT.length)
    match firstOcc closeT rest with
    | none => none
    | some j => some (rest.take j)

/-- The `re.search(r'<name>(.*?)</name>', s, re.DOTALL)` calls of the source,
returning the (untrimmed) group 1. -/
def reSearchTag (name : String) (s : String) : Option String :=
  (extractBetween ("<" ++ name ++ ">").data ("</" ++ name ++ ">").data s.data).map
    (fun l => ⟨l⟩)

/-- Python `dict` lookup on the association-list model of a dict (keys are
unique by construction, mirroring insertion order). -/
def dictLookup (key : String) : List (String × String) → Option String
  | [] => none
  | (k, v) :: rest => if k = key then some v else dictLookup key rest

/-- One entry of `self.thought_log` (`log_thought` lines 40-44); the
wall-clock `timestamp` field is omitted. -/
structure ThoughtEntry where
  agent : String
  thought : String
deriving DecidableEq, Repr

/-- The mutable state of a `BrainEdgeSystem` instance that the core methods
touch: the `verbose` flag and the `thought_log` list (lines 31-32). -/
structure BrainEdgeSystem where
  verbose : Bool
  thought_log : List ThoughtEntry
deriving DecidableEq, Repr

/-- `BrainEdgeSystem.__init__`: `verbose` as given, `thought_log = []`. -/
def mkBrainEdgeSystem (verbose : Bool) : BrainEdgeSystem :=
  ⟨verbose, []⟩

/-- `log_thought` (lines 34-60): append an entry when verbose, else no-op
(console printing is ignored). -/
def log_thought (sys : BrainEdgeSystem) (agent thought : String) : BrainEdgeSystem :=
  if sys.verbose then
    { sys with thought_log := sys.thought_log ++ [⟨agent, thought⟩] }
  else sys

/-- The three backend call sites of one run: the brain (R1) call and the two
edge (V3) calls of `execute_edge_commands`. -/
inductive CallRole where
  | brain
  | edge1
  | edge2
deriving DecidableEq, Repr

/-- Oracle for `FireworksAPI.get_completion`: `none` models the `None`
returned when the HTTP request fails (test_fireworks.py lines 69-71). -/
structure Backend where
  complete : CallRole → String → Option String

/-- Errors observable from one processing run.  `typeError` is the Python
`TypeError` raised by `re.search` when its subject is `None`;
`configurationError` is the `ValueError` of `_load_api_key`. -/
inductive RunError where
  | typeError
  | configurationError
deriving DecidableEq, Repr

/-- The coordinator prompt template of `brain_decide` (lines 68-91). -/
def brain_prompt (situation : String) : String :=
  "Given this situation: " ++ situation ++
  "\n\n        Analyze the situation and provide two separate commands for our edge instances to execute.\n        Use HTML-style tags to structure your response as follows:\n\n        <thinking>\n        Share your step-by-step thought process here about how you\x27re approaching this task\n        </thinking>\n\n        <reasoning>\n        Explain your final decision-making process here\n        </reasoning>\n\n        <edge1>\n        Write the specific command for the first edge instance here\n        </edge1>\n\n        <edge2>\n        Write the specific command for the second edge instance here\n        </edge2>\n\n        Make sure each command is clear, specific, and self-contained within its tags.\n        Do not include any additional tags or thinking process in the edge commands.\n        "

/-- `brain_decide` (lines 62-95): log, call the backend under the brain role,
replace a failed (`None`) or empty completion by `""` (the `or \x22\x22`), log
again, return the raw text. -/
def brain_decide (bk : Backend) (sys : BrainEdgeSystem) (situation : String) :
    BrainEdgeSystem × String :=
  let sys := log_thought sys "Brain (R1)" ("Analyzing situation: " ++ situation)
  let response :=
    match bk.complete CallRole.brain (brain_prompt situation) with
    | none => ""
    | some t => if t = "" then "" else t
  let sys := log_thought sys "Brain (R1)" "Generated response with commands for edge instances"
  (sys, response)

/-- `parse_brain_response` (lines 97-120): extract the four recognized tags
by first-match regex search, strip each, insert present ones into the dict in
source order; a found `thinking` tag is also logged via `log_thought`. -/
def parse_brain_response (sys : BrainEdgeSystem) (response : String) :
    BrainEdgeSystem × List (String × String) :=
  let thinking_match := reSearchTag "thinking" response
  let reasoning_match := reSearchTag "reasoning" response
  let edge1_match := reSearchTag "edge1" response
  let edge2_match := reSearchTag "edge2" response
  let commands : List (String × String) := []
  let step1 : BrainEdgeSystem × List (String × String) :=
    match thinking_match with
    | some m =>
        (log_thought sys "Brain (R1)" ("Thought process: " ++ pyStripS m),
         commands ++ [("thinking", pyStripS m)])
    | none => (sys, commands)
  let sys := step1.1
  let commands := step1.2
  let commands :=
    match reasoning_match with
    | some m => commands ++ [("reasoning", pyStripS m)]
    | none => commands
  let commands :=
    match edge1_match with
    | some m => commands ++ [("edge1_command", pyStripS m)]
    | none => commands
  let commands :=
    match edge2_match with
    | some m => commands ++ [("edge2_command", pyStripS m)]
    | none => commands
  (sys, commands)

/-- The first edge prompt template of `execute_edge_commands` (lines 130-139). -/
def edge1_prompt (cmd : String) : String :=
  "You are a V3 edge instance. Execute this command directly:\n\n            " ++ cmd ++
  "\n\n            Before providing your response, briefly explain your approach:\n            <thinking>Your approach</thinking>\n\n            Then give your response:\n            <response>Your actual output</response>\n            "

/-- The second edge prompt template of `execute_edge_commands` (lines 152-161);
textually identical to the first. -/
def edge2_prompt (cmd : String) : String :=
  "You are a V3 edge instance. Execute this command directly:\n\n            " ++ cmd ++
  "\n\n            Before providing your response, briefly explain your approach:\n            <thinking>Your approach</thinking>\n\n            Then give your response:\n            <response>Your actual output</response>\n            "

/-- `execute_edge_commands` (lines 122-172): for each of `edge1_command` and
`edge2_command` present in the dict, in that fixed order, log, call the
backend for that edge; when the backend returns `None` the subsequent
`re.search(..., response, re.DOTALL)` raises `TypeError` (modelled as
`Except.error .typeError`), which aborts the remaining work; otherwise log
the worker thinking if tagged and append the stripped first `<response>`
group, or the whole raw text when that tag is absent. -/
def execute_edge_commands (bk : Backend) (sys : BrainEdgeSystem)
    (commands : List (String × String)) :
    Except RunError (BrainEdgeSystem × List String) :=
  let responses : List String := []
  let step1 : Except RunError (BrainEdgeSystem × List String) :=
    match dictLookup "edge1_command" commands with
    | none => Except.ok (sys, responses)
    | some cmd =>
      let sys := log_thought sys "Edge1 (V3)" ("Executing command: " ++ cmd)
      match bk.complete CallRole.edge1 (edge1_prompt cmd) with
      | none => Except.error RunError.typeError
      | some response1 =>
        let thinking_match := reSearchTag "thinking" response1
        let response_match := reSearchTag "response" response1
        let sys :=
          match thinking_match with
          | some t => log_thought sys "Edge1 (V3)" ("Approach: " ++ pyStripS t)
          | none => sys
        let resp :=
          match response_match with
          | some r => pyStripS r
          | none => response1
        Except.ok (sys, responses ++ [resp])
  match step1 with
  | Except.error e => Except.error e
  | Except.ok (sys, responses) =>
    match dictLookup "edge2_command" commands with
    | none => Except.ok (sys, responses)
    | some cmd =>
      let sys := log_thought sys "Edge2 (V3)" ("Executing command: " ++ cmd)
      match bk.complete CallRole.edge2 (edge2_prompt cmd) with
      | none => Except.error RunError.typeError
      | some response2 =>
        let thinking_match := reSearchTag "thinking" response2
        let response_match := reSearchTag "response" response2
        let sys :=
          match thinking_match with
          | some t => log_thought sys "Edge2 (V3)" ("Approach: " ++ pyStripS t)
          | none => sys
        let resp :=
          match response_match with
          | some r => pyStripS r
          | none => response2
        Except.ok (sys, responses ++ [resp])

/-- The dict returned by `process_situation` (lines 187-194); the
`thought_log` key is present exactly when `verbose` is set. -/
structure ProcessResult where
  brain_decisions : List (String × String)
  edge_responses : List String
  raw_brain_response : String
  thought_log : Option (List ThoughtEntry)
deriving DecidableEq, Repr

/-- `process_situation` (lines 174-196): decide, parse, dispatch, aggregate;
a `TypeError` raised inside `execute_edge_commands` propagates out. -/
def process_situation (bk : Backend) (sys : BrainEdgeSystem) (situation : String) :
    Except RunError (BrainEdgeSystem × ProcessResult) :=
  let s1 := brain_decide bk sys situation
  let sys := s1.1
  let brain_response := s1.2
  let s2 := parse_brain_response sys brain_response
  let sys := s2.1
  let decisions := s2.2
  match execute_edge_commands bk sys decisions with
  | Except.error e => Except.error e
  | Except.ok (sys, edge_responses) =>
    Except.ok (sys,
      { brain_decisions := decisions
        edge_responses := edge_responses
        raw_brain_response := brain_response
        thought_log := if sys.verbose then some sys.thought_log else none })

/-- The construction-time state of `FireworksAPI` that matters to the core:
the loaded key (models test_fireworks.py lines 29-35). -/
structure FireworksAPI where
  api_key : String
deriving DecidableEq, Repr

/-- `_load_api_key` (test_fireworks.py lines 37-43): `os.getenv` yields
`none` when the variable is unset; `if not api_key` also rejects the empty
string; on failure a `ValueError` is raised (modelled as
`configurationError`). -/
def load_api_key (env : Option String) : Except RunError String :=
  match env with
  | none => Except.error RunError.configurationError
  | some k => if k = "" then Except.error RunError.configurationError else Except.ok k

/-- `FireworksAPI.__init__`: loading the key is the only fallible step. -/
def mkFireworksAPI (env : Option String) : Except RunError FireworksAPI :=
  match load_api_key env with
  | Except.error e => Except.error e
  | Except.ok k => Except.ok ⟨k⟩

/-- `BrainEdgeSystem.__init__` including the `FireworksAPI()` construction it
performs first (lines 24-32): fails exactly when the key fails to load. -/
def mkBrainEdgeSystemE (env : Option String) (verbose : Bool) :
    Except RunError (FireworksAPI × BrainEdgeSystem) :=
  match mkFireworksAPI env with
  | Except.error e => Except.error e
  | Except.ok api => Except.ok (api, ⟨verbose, []⟩)

/-
Spec-side definitions: vocabulary used by the theorem statements.  These are
not translations of source lines; they name concepts of the specification
(first occurrence of a tag pair, audit-entry counts, the worker response
fallback) so the theorems below can relate the embedded code to them.
-/

/-- Spec-side: `pat` occurs as a contiguous sublist of `s` at index `i`. -/
def occursAt (pat s : List Char) (i : Nat) : Prop :=
  (s.drop i).take pat.length = pat

/-- The opening delimiter of a tag. -/
def openTag (name : String) : String := "<" ++ name ++ ">"

/-- The closing delimiter of a tag. -/
def closeTag (name : String) : String := "</" ++ name ++ ">"

/-- Spec-side: `i` is the index of the first occurrence of the opening tag of
`name` in `s`, and `j` is the index, inside the suffix that follows that
opening tag, of the first subsequent occurrence of the matching closing
tag. -/
def tagPairAt (name s : String) (i j : Nat) : Prop :=
  (occursAt (openTag name).data s.data i ∧
    ∀ k, k < i → ¬ occursAt (openTag name).data s.data k) ∧
  (occursAt (closeTag name).data (s.data.drop (i + (openTag name).data.length)) j ∧
    ∀ k, k < j →
      ¬ occursAt (closeTag name).data (s.data.drop (i + (openTag name).data.length)) k)

/-- The four recognized coordinator tags, paired with the dict key each one
populates, in the order `parse_brain_response` inserts them. -/
def tagKeys : List (String × String) :=
  [("thinking", "thinking"), ("reasoning", "reasoning"),
   ("edge1", "edge1_command"), ("edge2", "edge2_command")]

/-- What one worker invocation turns the raw backend text into: the stripped
first `<response>` group, or the whole raw text when that tag is absent
(lines 144-148 and 166-170). -/
def worker_response (raw : String) : String :=
  match reSearchTag "response" raw with
  | some r => pyStripS r
  | none => raw

/-- Number of audit entries `parse_brain_response` emits for a given text
(one when a `thinking` tag pair is found, none otherwise). -/
def countParseLogs (r : String) : Nat :=
  if (reSearchTag "thinking" r).isSome then 1 else 0

/-- Number of audit entries `execute_edge_commands` emits for a command dict,
counted per populated role: one for the command announcement plus one when
the worker text carries a `thinking` tag. -/
def countDispatchLogs (bk : Backend) (commands : List (String × String)) : Nat :=
  (match dictLookup "edge1_command" commands with
   | none => 0
   | some cmd =>
     match bk.complete CallRole.edge1 (edge1_prompt cmd) with
     | none => 0
     | some raw => 1 + (if (reSearchTag "thinking" raw).isSome then 1 else 0)) +
  (match dictLookup "edge2_command" commands with
   | none => 0
   | some cmd =>
     match bk.complete CallRole.edge2 (edge2_prompt cmd) with
     | none => 0
     | some raw => 1 + (if (reSearchTag "thinking" raw).isSome then 1 else 0))

/-- Total number of audit entries one `process_situation` run emits: two from
`brain_decide`, then the parse-time and dispatch-time entries (the state
passed to the pure recomputations here is irrelevant, as proved below). -/
def countRunLogSteps (bk : Backend) (situation : String) : Nat :=
  2 + countParseLogs (brain_decide bk (mkBrainEdgeSystem false) situation).2
    + countDispatchLogs bk
        (parse_brain_response (mkBrainEdgeSystem false)
          (brain_decide bk (mkBrainEdgeSystem false) situation).2).2

/-- A backend whose every call succeeds with a fixed tagged text; used to
instantiate theorems at concrete inputs. -/
def okBackend : Backend :=
  ⟨fun _ _ => some "<thinking>plan</thinking><response>out</response>"⟩

/-- A backend whose brain call fails (returns no text) while edge calls
succeed. -/
def brainFailBackend : Backend :=
  ⟨fun r _ =>
    match r with
    | CallRole.brain => none
    | _ => some "<response>ok</response>"⟩

/-- A backend whose first-edge call fails (returns no text) while the brain
and second-edge calls succeed. -/
def edge1FailBackend : Backend :=
  ⟨fun r _ =>
    match r with
    | CallRole.edge1 => none
    | _ => some "<response>ok</response>"⟩

/-
Helper lemmas shared by the claim theorems.
-/

theorem isPrefixOf_iff_take (pat s : List Char) :
    pat.isPrefixOf s = true ↔ s.take pat.length = pat := by
  induction pat generalizing s with
  | nil => simp [List.isPrefixOf]
  | cons c cs ih =>
    cases s with
    | nil => simp [List.isPrefixOf]
    | cons d ds =>
      simp only [List.isPrefixOf, Bool.and_eq_true, beq_iff_eq, List.length_cons,
        List.take_succ_cons, List.cons.injEq, ih]
      tauto

theorem occursAt_cons_succ (pat : List Char) (c : Char) (s : List Char) (j : Nat) :
    occursAt pat (c :: s) (j + 1) ↔ occursAt pat s j := by
  simp [occursAt]

theorem firstOcc_eq_some_iff (pat s : List Char) (i : Nat) :
    firstOcc pat s = some i ↔
      (occursAt pat s i ∧ ∀ j, j < i → ¬ occursAt pat s j) := by
  induction s generalizing i with
  | nil =>
    by_cases hp : pat = []
    · subst hp
      constructor
      · intro h
        have hi : i = 0 := by
          have h0 := h
          simp only [firstOcc, if_pos rfl] at h0
          exact (Option.some.inj h0).symm
        subst hi
        exact ⟨by simp [occursAt], by omega⟩
      · rintro ⟨_, hmin⟩
        have hi : i = 0 := by
          by_contra hne
          exact hmin 0 (Nat.pos_of_ne_zero hne) (by simp [occursAt])
        subst hi
        simp [firstOcc]
    · simp only [firstOcc, if_neg hp]
      constructor
      · intro h; cases h
      · rintro ⟨hocc, _⟩
        exfalso
        apply hp
        have h2 : ([] : List Char).take pat.length = pat := by
          simpa [occursAt] using hocc
        simpa using h2.symm
  | cons c rest ih =>
    simp only [firstOcc]
    by_cases hp : pat.isPrefixOf (c :: rest) = true
    · simp only [if_pos hp]
      constructor
      · rintro h
        cases h
        refine ⟨?_, by omega⟩
        have hpt := (isPrefixOf_iff_take pat (c :: rest)).mp hp
        simpa [occursAt] using hpt
      · rintro ⟨hocc, hmin⟩
        by_contra hne
        have hi : 0 < i := by
          rcases Nat.eq_zero_or_pos i with h0 | h0
          · exact absurd (by rw [h0]) hne
          · exact h0
        apply hmin 0 hi
        have hpt := (isPrefixOf_iff_take pat (c :: rest)).mp hp
        simpa [occursAt] using hpt
    · simp only [if_neg hp]
      have h0 : ¬ occursAt pat (c :: rest) 0 := by
        intro hocc
        apply hp
        exact (isPrefixOf_iff_take pat (c :: rest)).mpr (by simpa [occursAt] using hocc)
      constructor
      · intro h
        rcases Option.map_eq_some'.mp h with ⟨i', hi', rfl⟩
        rcases (ih i').mp hi' with ⟨hocc, hmin⟩
        refine ⟨(occursAt_cons_succ pat c rest i').mpr hocc, ?_⟩
        intro j hj
        cases j with
        | zero => exact h0
        | succ j' =>
          intro hocc'
          exact hmin j' (by omega) ((occursAt_cons_succ pat c rest j').mp hocc')
      · rintro ⟨hocc, hmin⟩
        cases i with
        | zero => exact absurd hocc h0
        | succ i' =>
          have hocc' := (occursAt_cons_succ pat c rest i').mp hocc
          have hmin' : ∀ j, j < i' → ¬ occursAt pat rest j := by
            intro j hj hoccj
            exact hmin (j + 1) (by omega) ((occursAt_cons_succ pat c rest j).mpr hoccj)
          rw [(ih i').mpr ⟨hocc', hmin'⟩]
          rfl

theorem extractBetween_eq_some_iff (openT closeT s w : List Char) :
    extractBetween openT closeT s = some w ↔
      ∃ i j,
        (occursAt openT s i ∧ ∀ k, k < i → ¬ occursAt openT s k) ∧
        (occursAt closeT (s.drop (i + openT.length)) j ∧
          ∀ k, k < j → ¬ occursAt closeT (s.drop (i + openT.length)) k) ∧
        w = (s.drop (i + openT.length)).take j := by
  unfold extractBetween
  cases hi : firstOcc openT s with
  | none =>
    constructor
    · intro h; cases h
    · rintro ⟨i, j, hopen, _, _⟩
      have hsome := (firstOcc_eq_some_iff openT s i).mpr hopen
      rw [hi] at hsome
      cases hsome
  | some i =>
    dsimp only
    cases hj : firstOcc closeT (s.drop (i + openT.length)) with
    | none =>
      constructor
      · intro h; cases h
      · rintro ⟨i2, j, hopen, hclose, _⟩
        have hsome := (firstOcc_eq_some_iff openT s i2).mpr hopen
        rw [hi] at hsome
        have hii : i2 = i := (Option.some.inj hsome).symm
        subst hii
        have hsome2 := (firstOcc_eq_some_iff closeT (s.drop (i2 + openT.length)) j).mpr hclose
        rw [hj] at hsome2
        cases hsome2
    | some j =>
      constructor
      · intro h
        refine ⟨i, j, (firstOcc_eq_some_iff openT s i).mp hi,
          (firstOcc_eq_some_iff closeT (s.drop (i + openT.length)) j).mp hj, ?_⟩
        exact (Option.some.inj h).symm
      · rintro ⟨i2, j2, hopen, hclose, hw⟩
        have hsome := (firstOcc_eq_some_iff openT s i2).mpr hopen
        rw [hi] at hsome
        have hii : i2 = i := (Option.some.inj hsome).symm
        subst hii
        have hsome2 := (firstOcc_eq_some_iff closeT (s.drop (i2 + openT.length)) j2).mpr hclose
        rw [hj] at hsome2
        have hjj : j2 = j := (Option.some.inj hsome2).symm
        subst hjj
        rw [hw]

theorem reSearchTag_eq_some_iff (name s content : String) :
    reSearchTag name s = some content ↔
      ∃ i j, tagPairAt name s i j ∧
        content = ⟨(s.data.drop (i + (openTag name).data.length)).take j⟩ := by
  unfold reSearchTag tagPairAt
  constructor
  · intro h
    rcases Option.map_eq_some'.mp h with ⟨w, hw, hcontent⟩
    rcases (extractBetween_eq_some_iff _ _ _ _).mp hw with ⟨i, j, hopen, hclose, hww⟩
    exact ⟨i, j, ⟨by simpa [openTag] using hopen,
      by simpa [openTag, closeTag] using hclose⟩,
      by rw [← hcontent, hww]; simp [openTag]⟩
  · rintro ⟨i, j, ⟨hopen, hclose⟩, hcontent⟩
    have hw : extractBetween ("<" ++ name ++ ">").data ("</" ++ name ++ ">").data s.data =
        some ((s.data.drop (i + ("<" ++ name ++ ">").data.length)).take j) :=
      (extractBetween_eq_some_iff _ _ _ _).mpr
        ⟨i, j, by simpa [openTag] using hopen, by simpa [openTag, closeTag] using hclose, rfl⟩
    rw [hw]
    simp only [Option.map_some']
    rw [hcontent]
    simp [openTag]

theorem reSearchTag_eq_none_iff (name s : String) :
    reSearchTag name s = none ↔ ¬ ∃ i j, tagPairAt name s i j := by
  constructor
  · intro h ⟨i, j, hpair⟩
    have hsome := (reSearchTag_eq_some_iff name s
      ⟨(s.data.drop (i + (openTag name).data.length)).take j⟩).mpr ⟨i, j, hpair, rfl⟩
    rw [h] at hsome
    cases hsome
  · intro h
    cases hr : reSearchTag name s with
    | none => rfl
    | some c =>
      rcases (reSearchTag_eq_some_iff name s c).mp hr with ⟨i, j, hpair, _⟩
      exact absurd ⟨i, j, hpair⟩ h

theorem parse_lookup_thinking (sys : BrainEdgeSystem) (r : String) :
    dictLookup "thinking" (parse_brain_response sys r).2 =
      (reSearchTag "thinking" r).map pyStripS := by
  unfold parse_brain_response
  rcases h1 : reSearchTag "thinking" r with _ | m1 <;>
  rcases h2 : reSearchTag "reasoning" r with _ | m2 <;>
  rcases h3 : reSearchTag "edge1" r with _ | m3 <;>
  rcases h4 : reSearchTag "edge2" r with _ | m4 <;>
  simp [dictLookup]

theorem parse_lookup_reasoning (sys : BrainEdgeSystem) (r : String) :
    dictLookup "reasoning" (parse_brain_response sys r).2 =
      (reSearchTag "reasoning" r).map pyStripS := by
  unfold parse_brain_response
  rcases h1 : reSearchTag "thinking" r with _ | m1 <;>
  rcases h2 : reSearchTag "reasoning" r with _ | m2 <;>
  rcases h3 : reSearchTag "edge1" r with _ | m3 <;>
  rcases h4 : reSearchTag "edge2" r with _ | m4 <;>
  simp [dictLookup]

theorem parse_lookup_edge1 (sys : BrainEdgeSystem) (r : String) :
    dictLookup "edge1_command" (parse_brain_response sys r).2 =
      (reSearchTag "edge1" r).map pyStripS := by
  unfold parse_brain_response
  rcases h1 : reSearchTag "thinking" r with _ | m1 <;>
  rcases h2 : reSearchTag "reasoning" r with _ | m2 <;>
  rcases h3 : reSearchTag "edge1" r with _ | m3 <;>
  rcases h4 : reSearchTag "edge2" r with _ | m4 <;>
  simp [dictLookup]

theorem parse_lookup_edge2 (sys : BrainEdgeSystem) (r : String) :
    dictLookup "edge2_command" (parse_brain_response sys r).2 =
      (reSearchTag "edge2" r).map pyStripS := by
  unfold parse_brain_response
  rcases h1 : reSearchTag "thinking" r with _ | m1 <;>
  rcases h2 : reSearchTag "reasoning" r with _ | m2 <;>
  rcases h3 : reSearchTag "edge1" r with _ | m3 <;>
  rcases h4 : reSearchTag "edge2" r with _ | m4 <;>
  simp [dictLookup]

theorem log_thought_verbose (sys : BrainEdgeSystem) (a t : String) :
    (log_thought sys a t).verbose = sys.verbose := by
  unfold log_thought
  split <;> rfl

theorem log_thought_length (sys : BrainEdgeSystem) (a t : String) :
    (log_thought sys a t).thought_log.length =
      sys.thought_log.length + (if sys.verbose then 1 else 0) := by
  unfold log_thought
  split <;> simp_all

theorem brain_decide_verbose (bk : Backend) (sys : BrainEdgeSystem) (s : String) :
    (brain_decide bk sys s).1.verbose = sys.verbose := by
  unfold brain_decide
  simp [log_thought_verbose]

theorem brain_decide_length (bk : Backend) (sys : BrainEdgeSystem) (s : String) :
    (brain_decide bk sys s).1.thought_log.length =
      sys.thought_log.length + (if sys.verbose then 2 else 0) := by
  unfold brain_decide
  simp only [log_thought_length, log_thought_verbose]
  split <;> omega

theorem brain_decide_snd (bk : Backend) (sys sys2 : BrainEdgeSystem) (s : String) :
    (brain_decide bk sys s).2 = (brain_decide bk sys2 s).2 := by
  unfold brain_decide
  rfl

theorem parse_verbose (sys : BrainEdgeSystem) (r : String) :
    (parse_brain_response sys r).1.verbose = sys.verbose := by
  unfold parse_brain_response
  rcases h1 : reSearchTag "thinking" r with _ | m1 <;>
  simp [log_thought_verbose]

theorem parse_length (sys : BrainEdgeSystem) (r : String) :
    (parse_brain_response sys r).1.thought_log.length =
      sys.thought_log.length + (if sys.verbose then countParseLogs r else 0) := by
  unfold parse_brain_response countParseLogs
  rcases h1 : reSearchTag "thinking" r with _ | m1 <;>
  simp [log_thought_length]

theorem parse_snd_state_indep (sys sys2 : BrainEdgeSystem) (r : String) :
    (parse_brain_response sys r).2 = (parse_brain_response sys2 r).2 := by
  unfold parse_brain_response
  rcases h1 : reSearchTag "thinking" r with _ | m1 <;>
  rfl

theorem execute_ok_state (bk : Backend) (sys : BrainEdgeSystem)
    (commands : List (String × String)) (sys' : BrainEdgeSystem) (rs : List String)
    (h : execute_edge_commands bk sys commands = Except.ok (sys', rs)) :
    sys'.verbose = sys.verbose ∧
    sys'.thought_log.length =
      sys.thought_log.length + (if sys.verbose then countDispatchLogs bk commands else 0) := by
  unfold execute_edge_commands at h
  unfold countDispatchLogs
  rcases hc1 : dictLookup "edge1_command" commands with _ | c1 <;>
    rw [hc1] at h <;> dsimp only at h <;>
  rcases hc2 : dictLookup "edge2_command" commands with _ | c2 <;>
    rw [hc2] at h <;> dsimp only at h
  · cases h
    simp
  · cases hb2 : bk.complete CallRole.edge2 (edge2_prompt c2) with
    | none => rw [hb2] at h; cases h
    | some raw2 =>
      rw [hb2] at h
      dsimp only at h
      rcases ht2 : reSearchTag "thinking" raw2 with _ | t2
      all_goals rw [ht2] at h
      all_goals dsimp only at h
      all_goals cases h
      all_goals simp [hc1, hc2, hb2, ht2, log_thought_verbose, log_thought_length]
      all_goals split <;> omega
  · cases hb1 : bk.complete CallRole.edge1 (edge1_prompt c1) with
    | none => rw [hb1] at h; cases h
    | some raw1 =>
      rw [hb1] at h
      dsimp only at h
      rcases ht1 : reSearchTag "thinking" raw1 with _ | t1
      all_goals rw [ht1] at h
      all_goals dsimp only at h
      all_goals cases h
      all_goals simp [hc1, hc2, hb1, ht1, log_thought_verbose, log_thought_length]
      all_goals split <;> omega
  · cases hb1 : bk.complete CallRole.edge1 (edge1_prompt c1) with
    | none => rw [hb1] at h; cases h
    | some raw1 =>
      rw [hb1] at h
      dsimp only at h
      rcases ht1 : reSearchTag "thinking" raw1 with _ | t1 <;>
        rw [ht1] at h <;> dsimp only at h <;>
      cases hb2 : bk.complete CallRole.edge2 (edge2_prompt c2) with
      | none => rw [hb2] at h; cases h
      | some raw2 =>
        rw [hb2] at h
        dsimp only at h
        rcases ht2 : reSearchTag "thinking" raw2 with _ | t2
        all_goals rw [ht2] at h
        all_goals dsimp only at h
        all_goals cases h
        all_goals simp [hc1, hc2, hb1, hb2, ht1, ht2, log_thought_verbose, log_thought_length]
        all_goals split <;> omega

theorem execute_responses_of_total (bk : Backend) (sys : BrainEdgeSystem)
    (commands : List (String × String))
    (h1 : ∀ p, (bk.complete CallRole.edge1 p).isSome = true)
    (h2 : ∀ p, (bk.complete CallRole.edge2 p).isSome = true) :
    Except.map Prod.snd (execute_edge_commands bk sys commands) =
      Except.ok
        ((match dictLookup "edge1_command" commands with
          | some c => [worker_response ((bk.complete CallRole.edge1 (edge1_prompt c)).getD "")]
          | none => []) ++
         (match dictLookup "edge2_command" commands with
          | some c => [worker_response ((bk.complete CallRole.edge2 (edge2_prompt c)).getD "")]
          | none => [])) := by
  unfold execute_edge_commands
  rcases hc1 : dictLookup "edge1_command" commands with _ | c1 <;>
  rcases hc2 : dictLookup "edge2_command" commands with _ | c2
  · rfl
  · cases hb2 : bk.complete CallRole.edge2 (edge2_prompt c2) with
    | none => have hs := h2 (edge2_prompt c2); rw [hb2] at hs; cases hs
    | some raw2 =>
      cases ht2 : reSearchTag "thinking" raw2 <;>
      cases hr2 : reSearchTag "response" raw2 <;>
      simp [worker_response, hb2, ht2, hr2, Except.map]
  · cases hb1 : bk.complete CallRole.edge1 (edge1_prompt c1) with
    | none => have hs := h1 (edge1_prompt c1); rw [hb1] at hs; cases hs
    | some raw1 =>
      cases ht1 : reSearchTag "thinking" raw1 <;>
      cases hr1 : reSearchTag "response" raw1 <;>
      simp [worker_response, hb1, ht1, hr1, Except.map]
  · cases hb1 : bk.complete CallRole.edge1 (edge1_prompt c1) with
    | none => have hs := h1 (edge1_prompt c1); rw [hb1] at hs; cases hs
    | some raw1 =>
      cases hb2 : bk.complete CallRole.edge2 (edge2_prompt c2) with
      | none => have hs := h2 (edge2_prompt c2); rw [hb2] at hs; cases hs
      | some raw2 =>
        cases ht1 : reSearchTag "thinking" raw1 <;>
        cases hr1 : reSearchTag "response" raw1 <;>
        cases ht2 : reSearchTag "thinking" raw2 <;>
        cases hr2 : reSearchTag "response" raw2 <;>
        simp [worker_response, hb1, hb2, ht1, ht2, hr1, hr2, Except.map]

theorem execute_ok_responses (bk : Backend) (sys : BrainEdgeSystem)
    (commands : List (String × String)) (sys' : BrainEdgeSystem) (rs : List String)
    (h : execute_edge_commands bk sys commands = Except.ok (sys', rs)) :
    rs =
      (match dictLookup "edge1_command" commands with
       | some c => [worker_response ((bk.complete CallRole.edge1 (edge1_prompt c)).getD "")]
       | none => []) ++
      (match dictLookup "edge2_command" commands with
       | some c => [worker_response ((bk.complete CallRole.edge2 (edge2_prompt c)).getD "")]
       | none => []) := by
  unfold execute_edge_commands at h
  rcases hc1 : dictLookup "edge1_command" commands with _ | c1 <;>
    rw [hc1] at h <;> dsimp only at h <;>
  rcases hc2 : dictLookup "edge2_command" commands with _ | c2 <;>
    rw [hc2] at h <;> dsimp only at h
  · cases h
    rfl
  · cases hb2 : bk.complete CallRole.edge2 (edge2_prompt c2) with
    | none => rw [hb2] at h; cases h
    | some raw2 =>
      rw [hb2] at h
      dsimp only at h
      rcases ht2 : reSearchTag "thinking" raw2 with _ | t2
      all_goals rw [ht2] at h
      all_goals dsimp only at h
      all_goals cases h
      all_goals simp [worker_response, hb2]
  · cases hb1 : bk.complete CallRole.edge1 (edge1_prompt c1) with
    | none => rw [hb1] at h; cases h
    | some raw1 =>
      rw [hb1] at h
      dsimp only at h
      rcases ht1 : reSearchTag "thinking" raw1 with _ | t1
      all_goals rw [ht1] at h
      all_goals dsimp only at h
      all_goals cases h
      all_goals simp [worker_response, hb1]
  · cases hb1 : bk.complete CallRole.edge1 (edge1_prompt c1) with
    | none => rw [hb1] at h; cases h
    | some raw1 =>
      rw [hb1] at h
      dsimp only at h
      rcases ht1 : reSearchTag "thinking" raw1 with _ | t1 <;>
        rw [ht1] at h <;> dsimp only at h <;>
      cases hb2 : bk.complete CallRole.edge2 (edge2_prompt c2) with
      | none => rw [hb2] at h; cases h
      | some raw2 =>
        rw [hb2] at h
        dsimp only at h
        rcases ht2 : reSearchTag "thinking" raw2 with _ | t2
        all_goals rw [ht2] at h
        all_goals dsimp only at h
        all_goals cases h
        all_goals simp [worker_response, hb1, hb2]

theorem execute_error_typeError (bk : Backend) (sys : BrainEdgeSystem)
    (commands : List (String × String)) (e : RunError)
    (h : execute_edge_commands bk sys commands = Except.error e) :
    e = RunError.typeError := by
  unfold execute_edge_commands at h
  rcases hc1 : dictLookup "edge1_command" commands with _ | c1 <;>
    rw [hc1] at h <;> dsimp only at h <;>
  rcases hc2 : dictLookup "edge2_command" commands with _ | c2 <;>
    rw [hc2] at h <;> dsimp only at h
  · cases h
  · cases hb2 : bk.complete CallRole.edge2 (edge2_prompt c2) with
    | none => rw [hb2] at h; cases h; rfl
    | some raw2 =>
      rw [hb2] at h
      dsimp only at h
      rcases ht2 : reSearchTag "thinking" raw2 with _ | t2 <;> rw [ht2] at h <;>
        dsimp only at h <;> cases h
  · cases hb1 : bk.complete CallRole.edge1 (edge1_prompt c1) with
    | none => rw [hb1] at h; cases h; rfl
    | some raw1 =>
      rw [hb1] at h
      dsimp only at h
      rcases ht1 : reSearchTag "thinking" raw1 with _ | t1 <;> rw [ht1] at h <;>
        dsimp only at h <;> cases h
  · cases hb1 : bk.complete CallRole.edge1 (edge1_prompt c1) with
    | none => rw [hb1] at h; cases h; rfl
    | some raw1 =>
      rw [hb1] at h
      dsimp only at h
      rcases ht1 : reSearchTag "thinking" raw1 with _ | t1 <;>
        rw [ht1] at h <;> dsimp only at h <;>
      cases hb2 : bk.complete CallRole.edge2 (edge2_prompt c2) with
      | none => rw [hb2] at h; cases h; rfl
      | some raw2 =>
        rw [hb2] at h
        dsimp only at h
        rcases ht2 : reSearchTag "thinking" raw2 with _ | t2 <;> rw [ht2] at h <;>
          dsimp only at h <;> cases h

theorem process_error_typeError (bk : Backend) (sys : BrainEdgeSystem)
    (situation : String) (e : RunError)
    (h : process_situation bk sys situation = Except.error e) :
    e = RunError.typeError := by
  unfold process_situation at h
  dsimp only at h
  cases hex : execute_edge_commands bk
      (parse_brain_response (brain_decide bk sys situation).1
        (brain_decide bk sys situation).2).1
      (parse_brain_response (brain_decide bk sys situation).1
        (brain_decide bk sys situation).2).2 with
  | error e2 =>
    rw [hex] at h
    dsimp only at h
    cases h
    exact execute_error_typeError _ _ _ _ hex
  | ok p =>
    rw [hex] at h
    dsimp only at h
    cases h

theorem pyStrip_all_space (l : List Char) (h : ∀ c ∈ l, isPySpace c = true) :
    pyStrip l = [] := by
  unfold pyStrip
  rw [List.dropWhile_eq_nil_iff.mpr h]
  rfl

/-
Claim theorems and their witnesses.
-/

/-- C1: a Decision's populated commands, in fixed role order (edge1 then
edge2), map 1:1 and in order onto the invoked workers and the returned
result list; an absent command is skipped with no placeholder; zero
populated commands give the empty list with no error. -/
theorem C1_dispatch_role_order (bk : Backend) (sys : BrainEdgeSystem)
    (commands : List (String × String))
    (h1 : ∀ p, (bk.complete CallRole.edge1 p).isSome = true)
    (h2 : ∀ p, (bk.complete CallRole.edge2 p).isSome = true) :
    Except.map Prod.snd (execute_edge_commands bk sys commands) =
      Except.ok
        ((match dictLookup "edge1_command" commands with
          | some c => [worker_response ((bk.complete CallRole.edge1 (edge1_prompt c)).getD "")]
          | none => []) ++
         (match dictLookup "edge2_command" commands with
          | some c => [worker_response ((bk.complete CallRole.edge2 (edge2_prompt c)).getD "")]
          | none => [])) :=
  execute_responses_of_total bk sys commands h1 h2

/-- Witness for C1 at a two-command dict and an always-succeeding backend. -/
theorem C1_dispatch_role_order_witness :
    Except.map Prod.snd (execute_edge_commands okBackend (mkBrainEdgeSystem false)
        [("edge1_command", "a"), ("edge2_command", "b")]) =
      Except.ok ["out", "out"] := by
  rw [C1_dispatch_role_order okBackend (mkBrainEdgeSystem false)
    [("edge1_command", "a"), ("edge2_command", "b")] (fun p => rfl) (fun p => rfl)]
  rfl

/-- C2: for each recognized tag, parsing extracts the text between the first
opening tag and the first subsequent matching closing tag, trimmed; an
absent pair leaves the field omitted; only the first pair counts. -/
theorem C2_parse_first_match (sys : BrainEdgeSystem) (response tag key : String)
    (hpair : (tag, key) ∈ tagKeys) :
    dictLookup key (parse_brain_response sys response).2 =
      (reSearchTag tag response).map pyStripS ∧
    (∀ content, reSearchTag tag response = some content ↔
      ∃ i j, tagPairAt tag response i j ∧
        content = ⟨(response.data.drop (i + (openTag tag).data.length)).take j⟩) ∧
    (reSearchTag tag response = none ↔ ¬ ∃ i j, tagPairAt tag response i j) := by
  refine ⟨?_, fun content => reSearchTag_eq_some_iff tag response content,
    reSearchTag_eq_none_iff tag response⟩
  simp only [tagKeys, List.mem_cons, List.not_mem_nil, or_false, Prod.mk.injEq] at hpair
  rcases hpair with ⟨rfl, rfl⟩ | ⟨rfl, rfl⟩ | ⟨rfl, rfl⟩ | ⟨rfl, rfl⟩
  · exact parse_lookup_thinking sys response
  · exact parse_lookup_reasoning sys response
  · exact parse_lookup_edge1 sys response
  · exact parse_lookup_edge2 sys response

/-- Witness for C2 at the edge1 tag and a concrete text. -/
theorem C2_parse_first_match_witness :
    dictLookup "edge1_command"
        (parse_brain_response (mkBrainEdgeSystem false) "<edge1> x </edge1>").2 =
      (reSearchTag "edge1" "<edge1> x </edge1>").map pyStripS ∧
    (∀ content, reSearchTag "edge1" "<edge1> x </edge1>" = some content ↔
      ∃ i j, tagPairAt "edge1" "<edge1> x </edge1>" i j ∧
        content = ⟨(("<edge1> x </edge1>" : String).data.drop
          (i + (openTag "edge1").data.length)).take j⟩) ∧
    (reSearchTag "edge1" "<edge1> x </edge1>" = none ↔
      ¬ ∃ i j, tagPairAt "edge1" "<edge1> x </edge1>" i j) :=
  C2_parse_first_match (mkBrainEdgeSystem false) "<edge1> x </edge1>" "edge1" "edge1_command"
    (by decide)

/-- C3: a worker's entry in the result list is the stripped content of the
first response tag pair of the backend text when present, and the whole raw
text otherwise; the edge1 entry is first, the edge2 entry is last. -/
theorem C3_worker_response_fallback (bk : Backend) (sys : BrainEdgeSystem)
    (commands : List (String × String)) (sys' : BrainEdgeSystem) (rs : List String)
    (hrun : execute_edge_commands bk sys commands = Except.ok (sys', rs)) :
    (∀ cmd raw, dictLookup "edge1_command" commands = some cmd →
      bk.complete CallRole.edge1 (edge1_prompt cmd) = some raw →
      rs.head? = some (worker_response raw)) ∧
    (∀ cmd raw, dictLookup "edge2_command" commands = some cmd →
      bk.complete CallRole.edge2 (edge2_prompt cmd) = some raw →
      rs.getLast? = some (worker_response raw)) := by
  have hrs := execute_ok_responses bk sys commands sys' rs hrun
  constructor
  · intro cmd raw hc hb
    rw [hrs, hc]
    dsimp only
    rw [hb]
    simp
  · intro cmd raw hc hb
    rw [hrs, hc]
    dsimp only
    rw [hb]
    cases hA : dictLookup "edge1_command" commands <;> rfl

/-- Witness for C3 at a concrete successful run with both commands. -/
theorem C3_worker_response_fallback_witness :
    (∀ cmd raw,
      dictLookup "edge1_command" [("edge1_command", "a"), ("edge2_command", "b")] = some cmd →
      okBackend.complete CallRole.edge1 (edge1_prompt cmd) = some raw →
      (["out", "out"] : List String).head? = some (worker_response raw)) ∧
    (∀ cmd raw,
      dictLookup "edge2_command" [("edge1_command", "a"), ("edge2_command", "b")] = some cmd →
      okBackend.complete CallRole.edge2 (edge2_prompt cmd) = some raw →
      (["out", "out"] : List String).getLast? = some (worker_response raw)) :=
  C3_worker_response_fallback okBackend (mkBrainEdgeSystem false)
    [("edge1_command", "a"), ("edge2_command", "b")] (mkBrainEdgeSystem false)
    ["out", "out"] (by rfl)

/-- C4: a failed coordinator backend call yields the empty raw text, which
parses to the all-absent Decision; no worker runs, the result list is empty,
and process_situation returns normally. -/
theorem C4_brain_failure_graceful (bk : Backend) (sys : BrainEdgeSystem) (situation : String)
    (hfail : bk.complete CallRole.brain (brain_prompt situation) = none) :
    (brain_decide bk sys situation).2 = "" ∧
    ∃ sys' res,
      process_situation bk sys situation = Except.ok (sys', res) ∧
      res.brain_decisions = [] ∧
      res.edge_responses = [] ∧
      res.raw_brain_response = "" := by
  have hbd : (brain_decide bk sys situation).2 = "" := by
    unfold brain_decide
    rw [hfail]
  refine ⟨hbd, ?_⟩
  unfold process_situation
  dsimp only
  rw [hbd]
  have hparse : ∀ s2 : BrainEdgeSystem, (parse_brain_response s2 "").2 = [] := by
    intro s2
    unfold parse_brain_response
    have h1 : reSearchTag "thinking" "" = none := rfl
    have h2 : reSearchTag "reasoning" "" = none := rfl
    have h3 : reSearchTag "edge1" "" = none := rfl
    have h4 : reSearchTag "edge2" "" = none := rfl
    rw [h1, h2, h3, h4]
  rw [hparse]
  have hexec : ∀ s3 : BrainEdgeSystem,
      execute_edge_commands bk s3 [] = Except.ok (s3, []) := fun s3 => rfl
  rw [hexec]
  dsimp only
  exact ⟨_, _, rfl, rfl, rfl, rfl⟩

/-- Witness for C4 with a backend whose brain call fails. -/
theorem C4_brain_failure_graceful_witness :
    (brain_decide brainFailBackend (mkBrainEdgeSystem false) "s").2 = "" ∧
    ∃ sys' res,
      process_situation brainFailBackend (mkBrainEdgeSystem false) "s" =
        Except.ok (sys', res) ∧
      res.brain_decisions = [] ∧
      res.edge_responses = [] ∧
      res.raw_brain_response = "" :=
  C4_brain_failure_graceful brainFailBackend (mkBrainEdgeSystem false) "s" rfl

/-- C5: contrary to the specification, a worker backend failure is not
caught locally: the `None` completion reaches `re.search`, which raises
`TypeError`, aborting the sibling worker and the whole run (the second
command is never dispatched and no result list is produced). -/
theorem C5_worker_failure_aborts_run :
    execute_edge_commands edge1FailBackend (mkBrainEdgeSystem false)
      [("edge1_command", "a"), ("edge2_command", "b")] =
      Except.error RunError.typeError := rfl

/-- C6: with auditing off the ProcessResult carries no thought log; with
auditing on (from a freshly constructed instance) it carries the log, whose
length is exactly the number of log-emitting steps the run executed. -/
theorem C6_audit_log_length (bk : Backend) (situation : String) (b : Bool)
    (sys' : BrainEdgeSystem) (res : ProcessResult)
    (hrun : process_situation bk (mkBrainEdgeSystem b) situation = Except.ok (sys', res)) :
    (b = false → res.thought_log = none) ∧
    (b = true → ∃ l, res.thought_log = some l ∧ l.length = countRunLogSteps bk situation) := by
  unfold process_situation at hrun
  dsimp only at hrun
  cases hex : execute_edge_commands bk
      (parse_brain_response (brain_decide bk (mkBrainEdgeSystem b) situation).1
        (brain_decide bk (mkBrainEdgeSystem b) situation).2).1
      (parse_brain_response (brain_decide bk (mkBrainEdgeSystem b) situation).1
        (brain_decide bk (mkBrainEdgeSystem b) situation).2).2 with
  | error e => rw [hex] at hrun; cases hrun
  | ok p =>
    rw [hex] at hrun
    dsimp only at hrun
    cases hrun
    obtain ⟨hv, hlen⟩ := execute_ok_state _ _ _ _ _ hex
    rw [parse_verbose, brain_decide_verbose] at hv
    constructor
    · intro hb
      simp only [hv, hb]
      rfl
    · intro hb
      subst hb
      refine ⟨p.1.thought_log, by simp [hv, mkBrainEdgeSystem], ?_⟩
      have e0 : (mkBrainEdgeSystem true).verbose = true := rfl
      have e1 : (brain_decide bk (mkBrainEdgeSystem true) situation).1.verbose = true := by
        rw [brain_decide_verbose]
        rfl
      have e2 : (parse_brain_response (brain_decide bk (mkBrainEdgeSystem true) situation).1
          (brain_decide bk (mkBrainEdgeSystem true) situation).2).1.verbose = true := by
        rw [parse_verbose, brain_decide_verbose]
        rfl
      have e3 : (mkBrainEdgeSystem true).thought_log.length = 0 := rfl
      rw [hlen, parse_length, brain_decide_length]
      simp only [e0, e1, e2, e3, if_true]
      unfold countRunLogSteps
      rw [show (brain_decide bk (mkBrainEdgeSystem true) situation).2 =
          (brain_decide bk (mkBrainEdgeSystem false) situation).2 from
        brain_decide_snd bk (mkBrainEdgeSystem true) (mkBrainEdgeSystem false) situation]
      rw [parse_snd_state_indep (brain_decide bk (mkBrainEdgeSystem true) situation).1
        (mkBrainEdgeSystem false) (brain_decide bk (mkBrainEdgeSystem false) situation).2]

/-- Witness for C6: a fresh verbose run whose coordinator call fails emits
exactly the two brain_decide entries. -/
theorem C6_audit_log_length_witness :
    (true = false →
      (ProcessResult.mk [] [] ""
        (some [⟨"Brain (R1)", "Analyzing situation: s"⟩,
               ⟨"Brain (R1)", "Generated response with commands for edge instances"⟩])).thought_log =
        none) ∧
    (true = true →
      ∃ l,
        (ProcessResult.mk [] [] ""
          (some [⟨"Brain (R1)", "Analyzing situation: s"⟩,
                 ⟨"Brain (R1)", "Generated response with commands for edge instances"⟩])).thought_log =
          some l ∧
        l.length = countRunLogSteps brainFailBackend "s") :=
  C6_audit_log_length brainFailBackend "s" true
    ⟨true, [⟨"Brain (R1)", "Analyzing situation: s"⟩,
            ⟨"Brain (R1)", "Generated response with commands for edge instances"⟩]⟩
    (ProcessResult.mk [] [] ""
      (some [⟨"Brain (R1)", "Analyzing situation: s"⟩,
             ⟨"Brain (R1)", "Generated response with commands for edge instances"⟩]))
    (by rfl)

/-- C7 counterexample: parsing is not free of side effects as claimed — on a
verbose instance, a text with a thinking tag changes the thought log. -/
theorem C7_parse_not_pure :
    (parse_brain_response (mkBrainEdgeSystem true) "<thinking>x</thinking>").1 ≠
      mkBrainEdgeSystem true := by decide

/-- C7 amended: the returned field mapping depends only on the input text,
and the instance state is left unchanged except that, when auditing is
enabled and a thinking tag pair is present, exactly one audit entry (the
trimmed thinking content) is appended to the thought log. -/
theorem C7_parse_effect_amended (sys sys2 : BrainEdgeSystem) (r : String) :
    (parse_brain_response sys r).2 = (parse_brain_response sys2 r).2 ∧
    (parse_brain_response sys r).1.verbose = sys.verbose ∧
    (parse_brain_response sys r).1.thought_log =
      sys.thought_log ++
        (if sys.verbose then
          (match reSearchTag "thinking" r with
           | some m => [⟨"Brain (R1)", "Thought process: " ++ pyStripS m⟩]
           | none => [])
         else []) := by
  refine ⟨parse_snd_state_indep sys sys2 r, parse_verbose sys r, ?_⟩
  unfold parse_brain_response
  rcases h1 : reSearchTag "thinking" r with _ | m1
  · dsimp only
    cases hv : sys.verbose <;> simp [hv]
  · dsimp only
    unfold log_thought
    cases hv : sys.verbose <;> simp [hv]

/-- C8: an empty or whitespace-only command tag still counts as present
(value empty after trimming) and its worker is still dispatched, for either
command role (edge1 or edge2). -/
theorem C8_blank_command_still_dispatched (sys : BrainEdgeSystem) (bk : Backend)
    (response ws : String)
    (hws : ∀ c ∈ ws.data, isPySpace c = true)
    (hbk1 : ∀ p, (bk.complete CallRole.edge1 p).isSome = true)
    (hbk2 : ∀ p, (bk.complete CallRole.edge2 p).isSome = true) :
    (reSearchTag "edge1" response = some ws →
      dictLookup "edge1_command" (parse_brain_response sys response).2 = some "" ∧
      Except.map Prod.snd
          (execute_edge_commands bk sys (parse_brain_response sys response).2) =
        Except.ok
          ([worker_response ((bk.complete CallRole.edge1 (edge1_prompt "")).getD "")] ++
           (match dictLookup "edge2_command" (parse_brain_response sys response).2 with
            | some c => [worker_response ((bk.complete CallRole.edge2 (edge2_prompt c)).getD "")]
            | none => []))) ∧
    (reSearchTag "edge2" response = some ws →
      dictLookup "edge2_command" (parse_brain_response sys response).2 = some "" ∧
      Except.map Prod.snd
          (execute_edge_commands bk sys (parse_brain_response sys response).2) =
        Except.ok
          ((match dictLookup "edge1_command" (parse_brain_response sys response).2 with
            | some c => [worker_response ((bk.complete CallRole.edge1 (edge1_prompt c)).getD "")]
            | none => []) ++
           [worker_response ((bk.complete CallRole.edge2 (edge2_prompt "")).getD "")])) := by
  have hstrip : pyStripS ws = "" := by
    unfold pyStripS
    rw [pyStrip_all_space ws.data hws]
  constructor
  · intro hfound
    have hlk : dictLookup "edge1_command" (parse_brain_response sys response).2 = some "" := by
      rw [parse_lookup_edge1, hfound]
      simp [hstrip]
    refine ⟨hlk, ?_⟩
    have hex := execute_responses_of_total bk sys (parse_brain_response sys response).2 hbk1 hbk2
    rw [hlk] at hex
    exact hex
  · intro hfound
    have hlk : dictLookup "edge2_command" (parse_brain_response sys response).2 = some "" := by
      rw [parse_lookup_edge2, hfound]
      simp [hstrip]
    refine ⟨hlk, ?_⟩
    have hex := execute_responses_of_total bk sys (parse_brain_response sys response).2 hbk1 hbk2
    rw [hlk] at hex
    exact hex

/-- Witness for C8 at a text with a whitespace-only edge1 tag and a
whitespace-only edge2 tag, so both role branches apply. -/
theorem C8_blank_command_still_dispatched_witness :
    (reSearchTag "edge1" "<edge1>  </edge1><edge2>  </edge2>" = some "  " →
      dictLookup "edge1_command"
          (parse_brain_response (mkBrainEdgeSystem false)
            "<edge1>  </edge1><edge2>  </edge2>").2 = some "" ∧
      Except.map Prod.snd
          (execute_edge_commands okBackend (mkBrainEdgeSystem false)
            (parse_brain_response (mkBrainEdgeSystem false)
              "<edge1>  </edge1><edge2>  </edge2>").2) =
        Except.ok
          ([worker_response ((okBackend.complete CallRole.edge1 (edge1_prompt "")).getD "")] ++
           (match dictLookup "edge2_command"
               (parse_brain_response (mkBrainEdgeSystem false)
                 "<edge1>  </edge1><edge2>  </edge2>").2 with
            | some c =>
              [worker_response ((okBackend.complete CallRole.edge2 (edge2_prompt c)).getD "")]
            | none => []))) ∧
    (reSearchTag "edge2" "<edge1>  </edge1><edge2>  </edge2>" = some "  " →
      dictLookup "edge2_command"
          (parse_brain_response (mkBrainEdgeSystem false)
            "<edge1>  </edge1><edge2>  </edge2>").2 = some "" ∧
      Except.map Prod.snd
          (execute_edge_commands okBackend (mkBrainEdgeSystem false)
            (parse_brain_response (mkBrainEdgeSystem false)
              "<edge1>  </edge1><edge2>  </edge2>").2) =
        Except.ok
          ((match dictLookup "edge1_command"
               (parse_brain_response (mkBrainEdgeSystem false)
                 "<edge1>  </edge1><edge2>  </edge2>").2 with
            | some c =>
              [worker_response ((okBackend.complete CallRole.edge1 (edge1_prompt c)).getD "")]
            | none => []) ++
           [worker_response ((okBackend.complete CallRole.edge2 (edge2_prompt "")).getD "")])) :=
  C8_blank_command_still_dispatched (mkBrainEdgeSystem false) okBackend
    "<edge1>  </edge1><edge2>  </edge2>" "  " (by decide) (fun p => rfl) (fun p => rfl)

/-- C9: a missing backend API key makes construction fail with a
configuration error before any processing; a successfully constructed system
never fails for that configuration reason during processing. -/
theorem C9_config_error_at_construction (env : Option String) (v : Bool) :
    (env = none → mkBrainEdgeSystemE env v = Except.error RunError.configurationError) ∧
    (∀ api sys, mkBrainEdgeSystemE env v = Except.ok (api, sys) →
      ∀ bk situation e, process_situation bk sys situation = Except.error e →
        e ≠ RunError.configurationError) := by
  constructor
  · rintro rfl
    rfl
  · intro api sys _ bk situation e herr
    rw [process_error_typeError bk sys situation e herr]
    decide

/-- Witness for C9 at a missing key and at a constructed system. -/
theorem C9_config_error_at_construction_witness :
    ((none : Option String) = none →
      mkBrainEdgeSystemE none false = Except.error RunError.configurationError) ∧
    (∀ api sys, mkBrainEdgeSystemE none false = Except.ok (api, sys) →
      ∀ bk situation e, process_situation bk sys situation = Except.error e →
        e ≠ RunError.configurationError) :=
  C9_config_error_at_construction none false

/-- C10: parsing is total and its result dict only ever carries the four
recognized keys. -/
theorem C10_decision_keys_subset (sys : BrainEdgeSystem) (response : String) :
    ∀ kv ∈ (parse_brain_response sys response).2,
      kv.1 = "thinking" ∨ kv.1 = "reasoning" ∨
      kv.1 = "edge1_command" ∨ kv.1 = "edge2_command" := by
  intro kv hkv
  unfold parse_brain_response at hkv
  rcases h1 : reSearchTag "thinking" response with _ | m1 <;> rw [h1] at hkv <;>
  rcases h2 : reSearchTag "reasoning" response with _ | m2 <;> rw [h2] at hkv <;>
  rcases h3 : reSearchTag "edge1" response with _ | m3 <;> rw [h3] at hkv <;>
  rcases h4 : reSearchTag "edge2" response with _ | m4 <;> rw [h4] at hkv <;>
  simp only [List.nil_append, List.mem_append, List.mem_singleton,
    List.not_mem_nil, or_false, false_or] at hkv <;>
  aesop

/-- Witness for C10 at a concrete parsed text and a concrete member of it. -/
theorem C10_decision_keys_subset_witness :
    ("edge1_command", "x").1 = "thinking" ∨ ("edge1_command", "x").1 = "reasoning" ∨
    ("edge1_command", "x").1 = "edge1_command" ∨ ("edge1_command", "x").1 = "edge2_command" :=
  C10_decision_keys_subset (mkBrainEdgeSystem false) "<edge1>x</edge1>"
    ("edge1_command", "x") (by decide)

end BrainEdge
